import Mathlib

/-!
Verification of the GradeKeeper master-client coordination subsystem.

This file is a shallow embedding of the coordinator ("master") and of the
agent ("client") reconnect logic of the GradeKeeper repository, translated
from the Go sources:

  * the coordinator: the `Master` type and its methods (`loadClientData`,
    `saveClientData`, `monitorHeartbeats`, `handleWebSocket`,
    `handleClientMessage`, `broadcastCommand`, `getAllClients`,
    `handleAPICommand`);
  * the agent: the exponential-backoff loop of `Client.connectWithRetry`.

Modelling conventions:

  * Go `time.Time` values are modelled as `Nat` seconds on an abstract
    timeline; `time.Duration` constants (`HeartbeatTimeout = 90s`, ticker
    interval `30s`, backoff cap `30s`) become the corresponding `Nat`s.
  * Go maps (`map[string]*websocket.Conn`, `map[string]*ClientInfo`) are
    modelled as lists: the live-socket map by its key list
    (`clients : List String`, a socket itself carries no data the claims
    need) and the record map by an association list
    (`clientsInfo : List (String × ClientInfo)`).  List order stands in
    for Go's unspecified map-iteration order.
  * The dashboard-connection set `map[*websocket.Conn]bool` is modelled by
    a list of opaque connection identifiers (`dashboardConns : List Nat`).
  * Mutex fields (`clientsMu`, `dashboardMu`), the websocket upgrader, the
    dashboard secret and the storage-file name carry no claim-relevant
    data and are omitted; handlers are modelled as sequential functions on
    the registry state, which is what the locks enforce.
  * I/O effects (frames written to sockets, sockets closed, dashboard
    broadcasts, snapshot writes) are returned explicitly in outcome
    structures, in program order.
  * A Go runtime panic (the `clientID[:8]` slice with a short id) is
    modelled by a `panicked` flag on the outcome.
-/

/-- One agent record, from `ClientInfo` in the master
(`src/unnamed/part_006`, lines 36-43): id, display name, status
("connected" / "disconnected"), and the three timestamps. -/
structure ClientInfo where
  id : String
  name : String
  status : String
  lastSeen : Nat
  firstSeen : Nat
  lastHeartbeat : Nat
deriving Repr, DecidableEq

/-- A dashboard-bound message payload.  The Go code builds these as
`map[string]interface{}` literals; the fields below are the union of the
keys used by the events the claims mention (`client-disconnected`,
`client-connected`, `command-sent`), with `""` / `0` for keys a given
event does not carry. -/
structure DashMsg where
  type : String
  clientId : String := ""
  reason : String := ""
  action : String := ""
  target : String := ""
  clientCount : Nat := 0
deriving Repr, DecidableEq

/-- A typed frame written to a single agent socket (`Message` values in
the Go code, restricted to the frame types the claims mention). -/
inductive NetFrame where
  | errorFrame (error : String) (message : String)
  | welcome (clientId : String)
deriving Repr, DecidableEq

/-- An action the handler performs on the newly accepted socket, in
program order: writing a frame or closing the socket. -/
inductive SockAct where
  | write (f : NetFrame)
  | close
deriving Repr, DecidableEq

/-- The coordinator state, from the `Master` struct
(`src/unnamed/part_006`, lines 45-54): the live-socket map (key list),
the agent-record map (association list) and the dashboard-connection
set (list of opaque identifiers).  Locks and configuration fields are
omitted (see the module comment). -/
structure Master where
  clients : List String
  clientsInfo : List (String × ClientInfo)
  dashboardConns : List Nat
deriving Repr, DecidableEq

/-- `HeartbeatTimeout = 90 * time.Second` (part_006, line 22), in seconds. -/
def HeartbeatTimeout : Nat := 90

/-- The heartbeat-monitor ticker interval, `30 * time.Second`
(part_006, line 124), in seconds. -/
def MonitorInterval : Nat := 30

/-- Lookup in the record map: the value stored under key `k`
(Go `m.clientsInfo[k]`; for an association list, the first binding). -/
def lookupInfo (l : List (String × ClientInfo)) (k : String) : Option ClientInfo :=
  (l.find? (fun p => p.1 = k)).map (fun p => p.2)

/-- Map insertion `m[k] = v`: replace the binding of `k` when present,
otherwise append a new binding. -/
def insertInfo (l : List (String × ClientInfo)) (k : String) (v : ClientInfo) :
    List (String × ClientInfo) :=
  if l.any (fun p => p.1 = k) then
    l.map (fun p => if p.1 = k then (k, v) else p)
  else
    l ++ [(k, v)]

/-- `Master.saveClientData` (part_006, lines 103-121): the snapshot file
contents are the record values, in map-iteration order (here: list
order).  The marshalling and file write themselves are I/O and cannot
fail in the model. -/
def saveClientData (m : Master) : List ClientInfo :=
  m.clientsInfo.map (fun p => p.2)

/-- `Master.loadClientData` (part_006, lines 79-101): parse the stored
record array and insert each record keyed by its `ID` field, forcing
`Status` to "disconnected" ("All clients start as disconnected"). -/
def loadClientData (file : List ClientInfo) : List (String × ClientInfo) :=
  file.foldl (fun acc c => insertInfo acc c.id { c with status := "disconnected" }) []

/-- The per-record check of one heartbeat-monitor tick (part_006, lines
132-147): a record that is "connected" and whose last heartbeat is more
than `HeartbeatTimeout` in the past is demoted to "disconnected" with
`lastSeen := now`; the returned flag says whether the record was
demoted.  (`now.Sub(lastHeartbeat)` is modelled by truncated `Nat`
subtraction, which like Go's signed duration is `≤ 90` whenever the
heartbeat is not in the past by more than 90s.) -/
def tickCheck (now : Nat) (info : ClientInfo) : ClientInfo × Bool :=
  if info.status = "connected" ∧ now - info.lastHeartbeat > HeartbeatTimeout then
    ({ info with status := "disconnected", lastSeen := now }, true)
  else
    (info, false)

/-- `Master.broadcastToDashboard` (part_006, lines 429-440): write the
message to every dashboard connection.  Returned as the list of
(connection, message) deliveries. -/
def broadcastToDashboard (dashboards : List Nat) (msg : DashMsg) : List (Nat × DashMsg) :=
  dashboards.map (fun c => (c, msg))

/-- Outcome of one heartbeat-monitor tick: the new state, the demoted
client ids (`disconnectedClients` in the Go code), the live sockets that
were force-closed, the dashboard deliveries and whether
`saveClientData` ran. -/
structure TickOutcome where
  state : Master
  demoted : List String
  closed : List String
  deliveries : List (Nat × DashMsg)
  persisted : Bool
deriving Repr, DecidableEq

/-- One tick of `Master.monitorHeartbeats` (part_006, lines 127-171):
sweep all records with `tickCheck`; for each demoted id close and drop
its live socket if present; broadcast a `client-disconnected` event with
reason `heartbeat_timeout` (and the post-sweep live count, read after
the lock is released) for each demoted id; persist iff at least one
record was demoted. -/
def monitorHeartbeatsTick (m : Master) (now : Nat) : TickOutcome :=
  let newInfo := m.clientsInfo.map (fun p => (p.1, (tickCheck now p.2).1))
  let demoted := (m.clientsInfo.filter (fun p => (tickCheck now p.2).2)).map (fun p => p.1)
  let closed := demoted.filter (fun i => m.clients.contains i)
  let newClients := m.clients.filter (fun c => !(demoted.contains c))
  let events := demoted.map (fun i =>
    { type := "client-disconnected", clientId := i, reason := "heartbeat_timeout",
      clientCount := newClients.length : DashMsg })
  { state := { m with clients := newClients, clientsInfo := newInfo },
    demoted := demoted,
    closed := closed,
    deliveries := events.flatMap (fun e => broadcastToDashboard m.dashboardConns e),
    persisted := !demoted.isEmpty }

/-- Run the heartbeat monitor at the given tick times in order,
accumulating the dashboard deliveries (models the ticker loop of
`Master.monitorHeartbeats`). -/
def runTicks (m : Master) (times : List Nat) : Master × List (Nat × DashMsg) :=
  times.foldl
    (fun acc t =>
      let o := monitorHeartbeatsTick acc.1 t
      (o.state, acc.2 ++ o.deliveries))
    (m, [])

/-- Outcome of the client-connection phase of `Master.handleWebSocket`:
the state after the handler's registration section, whether registration
succeeded, whether the Go code panicked (short-id slice), the actions
performed on the new socket in order, the dashboard deliveries and
whether `saveClientData` ran. -/
structure ConnectOutcome where
  state : Master
  accepted : Bool
  panicked : Bool
  newSocket : List SockAct
  deliveries : List (Nat × DashMsg)
  persisted : Bool
deriving Repr, DecidableEq

/-- The agent-connection path of `Master.handleWebSocket` (part_006,
lines 256-327), i.e. the case where no `dashboard` query parameter was
supplied: reject an empty `X-Client-ID`; reject a duplicate id with a
typed `duplicate_connection` error frame written before the close and no
state change; otherwise insert the socket, create or update the record
(a brand-new id is given display name `"Client-" ++ id[:8]`, which in Go
panics when the id is shorter than 8 bytes — modelled by `panicked`,
with the state as left at the panic point: socket inserted, no record),
persist, notify dashboards with a `client-connected` event and write the
welcome frame.  On a panic Go still runs the deferred `conn.Close()`. -/
def handleWebSocket (m : Master) (clientID : String) (now : Nat) : ConnectOutcome :=
  if clientID = "" then
    { state := m, accepted := false, panicked := false,
      newSocket := [SockAct.close], deliveries := [], persisted := false }
  else if m.clients.contains clientID then
    { state := m, accepted := false, panicked := false,
      newSocket := [SockAct.write (NetFrame.errorFrame "duplicate_connection"
        "A connection with this client ID already exists"), SockAct.close],
      deliveries := [], persisted := false }
  else
    let clients2 := m.clients ++ [clientID]
    match lookupInfo m.clientsInfo clientID with
    | some info =>
      let info2 := { info with status := "connected", lastSeen := now, lastHeartbeat := now }
      let m2 : Master :=
        { m with
          clients := clients2,
          clientsInfo := insertInfo m.clientsInfo clientID info2 }
      { state := m2, accepted := true, panicked := false,
        newSocket := [SockAct.write (NetFrame.welcome clientID)],
        deliveries := broadcastToDashboard m.dashboardConns
          { type := "client-connected", clientId := clientID,
            clientCount := clients2.length },
        persisted := true }
    | none =>
      if clientID.length < 8 then
        { state := { m with clients := clients2 }, accepted := false, panicked := true,
          newSocket := [SockAct.close], deliveries := [], persisted := false }
      else
        let info2 : ClientInfo :=
          { id := clientID, name := "Client-" ++ clientID.take 8, status := "connected",
            lastSeen := now, firstSeen := now, lastHeartbeat := now }
        let m2 : Master :=
          { m with
            clients := clients2,
            clientsInfo := insertInfo m.clientsInfo clientID info2 }
        { state := m2, accepted := true, panicked := false,
          newSocket := [SockAct.write (NetFrame.welcome clientID)],
          deliveries := broadcastToDashboard m.dashboardConns
            { type := "client-connected", clientId := clientID,
              clientCount := clients2.length },
          persisted := true }

/-- Outcome of handling one inbound agent frame. -/
structure MsgOutcome where
  state : Master
  deliveries : List (Nat × DashMsg)
  persisted : Bool
deriving Repr, DecidableEq

/-- `Master.handleClientMessage` (part_006, lines 365-389): a switch on
the frame type.  "status" and "result" only log; "heartbeat" stamps
`lastHeartbeat`/`lastSeen` to now, flips the status back to "connected"
if stale, and persists.  Every other frame type — including
"action_status" — matches no case and is dropped without any state
change, broadcast or persist. -/
def handleClientMessage (m : Master) (clientID : String) (msgType : String) (now : Nat) :
    MsgOutcome :=
  if msgType = "heartbeat" then
    match lookupInfo m.clientsInfo clientID with
    | some info =>
      let info2 := { info with lastHeartbeat := now, lastSeen := now, status := "connected" }
      { state := { m with clientsInfo := insertInfo m.clientsInfo clientID info2 },
        deliveries := [], persisted := true }
    | none =>
      { state := m, deliveries := [], persisted := true }
  else
    { state := m, deliveries := [], persisted := false }

/-- A dispatched command, from the `Command` struct (part_006, lines
31-34): an action and a target ("all", "", or a specific client id). -/
structure Command where
  action : String
  target : String
deriving Repr, DecidableEq

/-- Outcome of `Master.broadcastCommand`: the ids whose live socket was
written the command frame, the dashboard deliveries, and the (unchanged)
state. -/
structure BroadcastOutcome where
  state : Master
  recipients : List String
  deliveries : List (Nat × DashMsg)
deriving Repr, DecidableEq

/-- `Master.broadcastCommand` (part_006, lines 391-427): if the target is
"all" or "", write the command frame to every live agent socket; else
write only to the target's socket when present (a write error is only
logged; an absent target is silently skipped).  Afterwards always emit a
`command-sent` event with action, target and the live count to every
dashboard connection.  The registry itself is only read (RLock). -/
def broadcastCommand (m : Master) (cmd : Command) : BroadcastOutcome :=
  let recipients :=
    if cmd.target = "all" ∨ cmd.target = "" then m.clients
    else if m.clients.contains cmd.target then [cmd.target] else []
  { state := m,
    recipients := recipients,
    deliveries := broadcastToDashboard m.dashboardConns
      { type := "command-sent", action := cmd.action, target := cmd.target,
        clientCount := m.clients.length } }

/-- `Master.getAllClients` (part_006, lines 442-451): collect the record
values by iterating the record map; no sorting is applied, so the order
is Go's unspecified map-iteration order (here: list order). -/
def getAllClients (m : Master) : List ClientInfo :=
  m.clientsInfo.map (fun p => p.2)

/-- An HTTP response of the command endpoint: the status code together
with the decoded `status` field of the JSON body for the success case. -/
inductive HTTPResp where
  | methodNotAllowed
  | badRequest
  | ok (code : Nat) (statusField : String)
deriving Repr, DecidableEq

/-- `Master.handleAPICommand` (part_006, lines 727-742): non-POST gets
405; an undecodable body gets 400; otherwise dispatch via
`broadcastCommand` and answer 200 with body `status: "sent"`.  The body
is modelled post-decoding: `none` stands for invalid JSON. -/
def handleAPICommand (m : Master) (method : String) (body : Option Command) :
    HTTPResp × Master × List String :=
  if method ≠ "POST" then (HTTPResp.methodNotAllowed, m, [])
  else
    match body with
    | none => (HTTPResp.badRequest, m, [])
    | some cmd =>
      let o := broadcastCommand m cmd
      (HTTPResp.ok 200 "sent", o.state, o.recipients)

/-- One backoff update of `Client.connectWithRetry`
(`src/cmd/gradekeeper-client/main.go`, lines 165-169): `backoff *= 2`,
clamped to the 30-second maximum. -/
def nextBackoff (b : Nat) : Nat :=
  if 2 * b > 30 then 30 else 2 * b

/-- The value of the `backoff` variable of `Client.connectWithRetry`
after `n` failed attempts of one retry loop: it starts at
`time.Second` (1s) and is doubled-and-clamped after each failure
(lines 138, 153-170). -/
def backoffAfter : Nat → Nat
  | 0 => 1
  | n + 1 => nextBackoff (backoffAfter n)

/-- The wait (in seconds) `Client.connectWithRetry` sleeps between the
`n`-th consecutive failed attempt and attempt `n + 1`: the loop sleeps
the current `backoff` *before* doubling it, so the wait after failure
`n` is the backoff value reached after `n - 1` earlier failures. -/
def waitAfterFailures (n : Nat) : Nat :=
  backoffAfter (n - 1)

/-- The ordering predicate of the C6 claim: a record sequence is sorted
by ascending id. -/
def sortedById (l : List ClientInfo) : Prop :=
  List.Pairwise (fun a b => a.id ≤ b.id) l

instance (l : List ClientInfo) : Decidable (sortedById l) := by
  unfold sortedById; infer_instance

/-! ## Association-list lemmas -/

/-- Unfolding `lookupInfo` over a cons cell. -/
theorem lookupInfo_cons (p : String × ClientInfo) (t : List (String × ClientInfo))
    (k : String) :
    lookupInfo (p :: t) k = if p.1 = k then some p.2 else lookupInfo t k := by
  by_cases h : p.1 = k
  · rw [if_pos h]
    unfold lookupInfo
    rw [List.find?_cons_of_pos _ (by simpa using h)]
    rfl
  · rw [if_neg h]
    unfold lookupInfo
    rw [List.find?_cons_of_neg _ (by simpa using h)]

/-- Lookup commutes with a key-preserving map over the values. -/
theorem lookupInfo_map (l : List (String × ClientInfo)) (f : ClientInfo → ClientInfo)
    (k : String) :
    lookupInfo (l.map (fun p => (p.1, f p.2))) k = (lookupInfo l k).map f := by
  induction l with
  | nil => rfl
  | cons p t ih =>
    rw [List.map_cons, lookupInfo_cons, lookupInfo_cons]
    by_cases h : p.1 = k
    · simp [h]
    · simp [h, ih]

/-- A successful lookup exhibits a member with the looked-up key and value. -/
theorem exists_of_lookupInfo_eq_some {l : List (String × ClientInfo)} {k : String}
    {info : ClientInfo} (h : lookupInfo l k = some info) :
    ∃ p ∈ l, p.1 = k ∧ p.2 = info := by
  induction l with
  | nil => simp [lookupInfo] at h
  | cons p t ih =>
    rw [lookupInfo_cons] at h
    by_cases hk : p.1 = k
    · rw [if_pos hk] at h
      exact ⟨p, List.mem_cons_self p t, hk, by injection h⟩
    · rw [if_neg hk] at h
      obtain ⟨q, hq, hk2, hv⟩ := ih h
      exact ⟨q, List.mem_cons_of_mem p hq, hk2, hv⟩

/-- A failed lookup means no member has the key. -/
theorem lookupInfo_eq_none_iff {l : List (String × ClientInfo)} {k : String} :
    lookupInfo l k = none ↔ ∀ p ∈ l, p.1 ≠ k := by
  induction l with
  | nil => simp [lookupInfo]
  | cons p t ih =>
    rw [lookupInfo_cons]
    by_cases hk : p.1 = k
    · simp [hk]
    · simp [hk, ih]

/-- Appending a binding for a previously absent key makes it the lookup result. -/
theorem lookupInfo_append_single {l : List (String × ClientInfo)} {k : String}
    (v : ClientInfo) (h : lookupInfo l k = none) :
    lookupInfo (l ++ [(k, v)]) k = some v := by
  induction l with
  | nil => simp [lookupInfo]
  | cons p t ih =>
    rw [lookupInfo_cons] at h
    rw [List.cons_append, lookupInfo_cons]
    by_cases hk : p.1 = k
    · rw [if_pos hk] at h
      exact absurd h (by simp)
    · rw [if_neg hk] at h
      rw [if_neg hk]
      exact ih h

/-- With pairwise-distinct keys, lookup of a member's key returns its value. -/
theorem lookupInfo_eq_of_mem_nodup {l : List (String × ClientInfo)}
    (hnd : (l.map (fun p => p.1)).Nodup) {p : String × ClientInfo} (hp : p ∈ l) :
    lookupInfo l p.1 = some p.2 := by
  induction l with
  | nil => cases hp
  | cons q t ih =>
    rw [List.map_cons, List.nodup_cons] at hnd
    rw [lookupInfo_cons]
    rcases List.mem_cons.mp hp with hq | ht
    · subst hq
      rw [if_pos rfl]
    · by_cases hk : q.1 = p.1
      · exact absurd (hk ▸ List.mem_map_of_mem (fun r => r.1) ht) hnd.1
      · rw [if_neg hk]
        exact ih hnd.2 ht

/-- The key of no member of `l` satisfies the lookup predicate when lookup fails. -/
theorem any_key_eq_false_of_lookupInfo_none {l : List (String × ClientInfo)} {k : String}
    (h : lookupInfo l k = none) :
    l.any (fun p => p.1 = k) = false := by
  rw [List.any_eq_false]
  intro p hp
  simpa using lookupInfo_eq_none_iff.mp h p hp

/-- A demoted key is listed among the ids of the filtered entries. -/
theorem mem_filter_map_fst {l : List (String × ClientInfo)} {k : String}
    {info : ClientInfo} (pred : ClientInfo → Bool)
    (h : lookupInfo l k = some info) (hp : pred info = true) :
    k ∈ (l.filter (fun p => pred p.2)).map (fun p => p.1) := by
  obtain ⟨p, hmem, hkey, hval⟩ := exists_of_lookupInfo_eq_some h
  exact List.mem_map.mpr
    ⟨p, List.mem_filter.mpr ⟨hmem, by rw [hval]; exact hp⟩, hkey⟩

/-! ## Concrete states used by witnesses and counterexamples -/

/-- The coordinator state produced by `NewMaster` before any connection:
empty live-socket map, empty record map, no dashboards. -/
def master0 : Master := { clients := [], clientsInfo := [], dashboardConns := [] }

/-- A state reached from `master0` by registering agent "bbbbbbbb" at
time 0 and then agent "aaaaaaaa" at time 1.  The record map's iteration
order (modelled by list order; arbitrary for a Go map) lists "bbbbbbbb"
first. -/
def twoAgentMaster : Master :=
  (handleWebSocket (handleWebSocket master0 "bbbbbbbb" 0).state "aaaaaaaa" 1).state

/-- `twoAgentMaster` with one dashboard observer attached (dashboard
registration only adds the connection to the dashboard set). -/
def observedMaster : Master := { twoAgentMaster with dashboardConns := [0] }

/-! ## Claim theorems -/

/-- C1: a connection attempt whose agent id already has a live socket is
rejected: the handler writes a typed `duplicate_connection` error frame
with a message on the new socket and closes it afterwards, changes
neither the live-socket map nor any agent record, and the original
connection's socket stays registered. -/
theorem duplicate_connection_rejected (m : Master) (clientID : String) (now : Nat)
    (hne : clientID ≠ "") (hlive : clientID ∈ m.clients) :
    (handleWebSocket m clientID now).state = m ∧
    (handleWebSocket m clientID now).accepted = false ∧
    (handleWebSocket m clientID now).newSocket =
      [SockAct.write (NetFrame.errorFrame "duplicate_connection"
        "A connection with this client ID already exists"), SockAct.close] ∧
    clientID ∈ (handleWebSocket m clientID now).state.clients := by
  have hc : m.clients.contains clientID = true := List.elem_iff.mpr hlive
  simp [handleWebSocket, hne, hc, hlive]

/-- Witness for C1: agent "aaaaaaaa" is live in `observedMaster`; a
second connection with the same id is rejected with the typed error
frame and the state is untouched. -/
theorem duplicate_connection_rejected_witness :
    (handleWebSocket observedMaster "aaaaaaaa" 5).state = observedMaster ∧
    (handleWebSocket observedMaster "aaaaaaaa" 5).accepted = false ∧
    (handleWebSocket observedMaster "aaaaaaaa" 5).newSocket =
      [SockAct.write (NetFrame.errorFrame "duplicate_connection"
        "A connection with this client ID already exists"), SockAct.close] ∧
    "aaaaaaaa" ∈ (handleWebSocket observedMaster "aaaaaaaa" 5).state.clients :=
  duplicate_connection_rejected observedMaster "aaaaaaaa" 5 (by decide) (by decide)

/-- C3 (recorded behaviour): an "action_status" frame from an agent
matches no case of `Master.handleClientMessage`, so it is dropped: the
registry is unchanged, nothing is broadcast to dashboards, and nothing
is persisted.  (`ClientInfo` has no `lastAction`, `lastActionStatus` or
`lastActionError` field at all.) -/
theorem action_status_frame_dropped (m : Master) (clientID : String) (now : Nat) :
    handleClientMessage m clientID "action_status" now =
      { state := m, deliveries := [], persisted := false } := by
  rfl

/-- C4: dispatching a command writes the command frame to every live
agent socket exactly when the target is "" or "all", otherwise only to
the target's socket when it is live (and to nobody when it is not), and
always afterwards delivers a `command-sent` event carrying the action,
the target and the live-agent count to every dashboard connection; the
registry is not modified. -/
theorem broadcastCommand_delivery (m : Master) (cmd : Command) :
    (broadcastCommand m cmd).state = m ∧
    (∀ id : String, id ∈ (broadcastCommand m cmd).recipients ↔
      (id ∈ m.clients ∧ (cmd.target = "all" ∨ cmd.target = "" ∨ cmd.target = id))) ∧
    (∀ d ∈ m.dashboardConns,
      (d, { type := "command-sent", action := cmd.action, target := cmd.target,
            clientCount := m.clients.length : DashMsg }) ∈
        (broadcastCommand m cmd).deliveries) := by
  refine ⟨rfl, ?_, ?_⟩
  · intro id
    show id ∈ (if cmd.target = "all" ∨ cmd.target = "" then m.clients
      else if m.clients.contains cmd.target then [cmd.target] else []) ↔ _
    by_cases hall : cmd.target = "all" ∨ cmd.target = ""
    · rw [if_pos hall]
      exact ⟨fun hm => ⟨hm, by tauto⟩, fun hm => hm.1⟩
    · rw [if_neg hall]
      push_neg at hall
      by_cases hl : cmd.target ∈ m.clients
      · rw [if_pos (List.elem_iff.mpr hl)]
        constructor
        · intro hm
          rcases List.mem_singleton.mp hm with rfl
          exact ⟨hl, Or.inr (Or.inr rfl)⟩
        · intro ⟨_, hm⟩
          rcases hm with h | h | h
          · exact absurd h hall.1
          · exact absurd h hall.2
          · exact h ▸ List.mem_singleton.mpr rfl
      · rw [if_neg (fun hx => hl (List.elem_iff.mp hx))]
        constructor
        · intro hm
          cases hm
        · intro ⟨hmem, hm⟩
          rcases hm with h | h | h
          · exact absurd h hall.1
          · exact absurd h hall.2
          · exact absurd (h ▸ hmem) hl
  · intro d hd
    exact List.mem_map.mpr ⟨d, hd, rfl⟩

/-- Witness for C4: in `observedMaster` a broadcast with target "all"
reaches agent "aaaaaaaa" and the dashboard connection receives the
`command-sent` event. -/
theorem broadcastCommand_delivery_witness :
    "aaaaaaaa" ∈ (broadcastCommand observedMaster
        { action := "setup", target := "all" }).recipients ∧
    (0, { type := "command-sent", action := "setup", target := "all",
          clientCount := observedMaster.clients.length : DashMsg }) ∈
      (broadcastCommand observedMaster { action := "setup", target := "all" }).deliveries :=
  ⟨((broadcastCommand_delivery observedMaster
      { action := "setup", target := "all" }).2.1 "aaaaaaaa").mpr
        ⟨by decide, Or.inl rfl⟩,
   (broadcastCommand_delivery observedMaster
      { action := "setup", target := "all" }).2.2 0 (by decide)⟩

/-- C6 (corrected direction): the snapshot contains exactly the records
of the registry — membership in `getAllClients` is membership in the
record map — but in map-iteration order, with no sorting applied. -/
theorem getAllClients_snapshot (m : Master) (info : ClientInfo) :
    info ∈ getAllClients m ↔ ∃ k, (k, info) ∈ m.clientsInfo := by
  unfold getAllClients
  rw [List.mem_map]
  constructor
  · rintro ⟨p, hp, rfl⟩
    exact ⟨p.1, hp⟩
  · rintro ⟨k, hk⟩
    exact ⟨(k, info), hk, rfl⟩

/-- Counterexample for C6 as stated: in the reachable state
`twoAgentMaster` the snapshot lists "bbbbbbbb" before "aaaaaaaa", so
the returned sequence is not sorted by ascending id. -/
theorem getAllClients_not_sorted : ¬ sortedById (getAllClients twoAgentMaster) := by
  intro h
  obtain ⟨hrel, -⟩ := List.pairwise_cons.mp
    (show List.Pairwise (fun a b => a.id ≤ b.id)
      ([⟨"bbbbbbbb", "Client-bbbbbbbb", "connected", 0, 0, 0⟩,
        ⟨"aaaaaaaa", "Client-aaaaaaaa", "connected", 1, 1, 1⟩] : List ClientInfo) from h)
  have h2 : ("bbbbbbbb" : String) ≤ "aaaaaaaa" := hrel _ (List.mem_cons_self _ _)
  revert h2
  simp
  decide

/-- The backoff variable after `n` failures equals `min (2 ^ n) 30`. -/
theorem backoffAfter_eq (n : Nat) : backoffAfter n = min (2 ^ n) 30 := by
  induction n with
  | zero => decide
  | succ n ih =>
    rw [backoffAfter, nextBackoff, ih, pow_succ]
    split <;> omega

/-- C7 (corrected): after `n ≥ 1` consecutive connection failures the
agent sleeps `min (2 ^ (n - 1)) 30` seconds before attempt `n + 1` — the
first retry waits 1s, not 2s — and each fresh invocation of the retry
loop (after any successful connection) restarts the backoff at 1s. -/
theorem connectWithRetry_backoff (n : Nat) (h : 1 ≤ n) :
    waitAfterFailures n = min (2 ^ (n - 1)) 30 ∧ backoffAfter 0 = 1 :=
  ⟨backoffAfter_eq (n - 1), rfl⟩

/-- Witness for C7: after 5 failures the wait is `min (2 ^ 4) 30 = 16`
seconds. -/
theorem connectWithRetry_backoff_witness :
    1 ≤ 5 ∧ (waitAfterFailures 5 = min (2 ^ (5 - 1)) 30 ∧ backoffAfter 0 = 1) :=
  ⟨by decide, connectWithRetry_backoff 5 (by decide)⟩

/-- Counterexample for C7 as stated: after 1 failure the code waits 1
second, not `min (2 ^ 1) 30 = 2` seconds. -/
theorem connectWithRetry_backoff_counterexample :
    waitAfterFailures 1 ≠ min (2 ^ 1) 30 := by
  decide

/-- C9: every well-formed POST to /api/command — the offline-target case
included — is answered with HTTP 200 and body field `status = "sent"`;
dispatch never mutates the registry (so no record changes in any way,
in particular `ClientInfo` carries no action fields that could change),
and when the target names an agent without a live socket the command
frame is written to no agent at all. -/
theorem api_command_returns_sent (m : Master) (cmd : Command) :
    (handleAPICommand m "POST" (some cmd)).1 = HTTPResp.ok 200 "sent" ∧
    (handleAPICommand m "POST" (some cmd)).2.1 = m ∧
    (cmd.target ≠ "all" → cmd.target ≠ "" → cmd.target ∉ m.clients →
      (handleAPICommand m "POST" (some cmd)).2.2 = []) := by
  refine ⟨rfl, rfl, ?_⟩
  intro h1 h2 h3
  have hc : m.clients.contains cmd.target = false := by
    rw [← Bool.not_eq_true]
    exact fun hx => h3 (List.elem_iff.mp hx)
  show (broadcastCommand m cmd).recipients = []
  show (if cmd.target = "all" ∨ cmd.target = "" then m.clients
    else if m.clients.contains cmd.target then [cmd.target] else []) = []
  rw [if_neg (by tauto), hc]
  rfl

/-- Witness for C9: posting `{action: "setup", target: "host-CCCC"}`
when host-CCCC is offline in `twoAgentMaster` returns 200/"sent", the
registry is unchanged and no agent socket receives the frame. -/
theorem api_command_returns_sent_witness :
    (handleAPICommand twoAgentMaster "POST"
        (some { action := "setup", target := "host-CCCC" })).1 = HTTPResp.ok 200 "sent" ∧
    (handleAPICommand twoAgentMaster "POST"
        (some { action := "setup", target := "host-CCCC" })).2.1 = twoAgentMaster ∧
    (handleAPICommand twoAgentMaster "POST"
        (some { action := "setup", target := "host-CCCC" })).2.2 = [] :=
  ⟨(api_command_returns_sent twoAgentMaster _).1,
   (api_command_returns_sent twoAgentMaster _).2.1,
   (api_command_returns_sent twoAgentMaster _).2.2 (by decide) (by decide) (by decide)⟩

/-- C10: for a first-time agent id (no live socket, no record) the
connection handler panics — Go aborts on the out-of-range slice
`clientID[:8]` — exactly when the id is shorter than 8 bytes; with an id
of at least 8 bytes registration succeeds and stores a record whose
display name is "Client-" followed by the id's first 8 bytes.  (Byte
length equals character length for the ASCII ids the agents generate.) -/
theorem new_agent_id_length_precondition (m : Master) (clientID : String) (now : Nat)
    (hne : clientID ≠ "") (hnl : clientID ∉ m.clients)
    (hnew : lookupInfo m.clientsInfo clientID = none) :
    ((handleWebSocket m clientID now).panicked = true ↔ clientID.length < 8) ∧
    (8 ≤ clientID.length →
      (handleWebSocket m clientID now).accepted = true ∧
      lookupInfo (handleWebSocket m clientID now).state.clientsInfo clientID =
        some { id := clientID, name := "Client-" ++ clientID.take 8,
               status := "connected", lastSeen := now, firstSeen := now,
               lastHeartbeat := now }) := by
  have hc : m.clients.contains clientID = false := by
    rw [← Bool.not_eq_true]
    exact fun hx => hnl (List.elem_iff.mp hx)
  by_cases h8 : clientID.length < 8
  · refine ⟨?_, fun hge => absurd h8 (by omega)⟩
    simp [handleWebSocket, hne, hc, hnl, hnew, h8]
  · refine ⟨?_, fun _ => ⟨?_, ?_⟩⟩
    · simp [handleWebSocket, hne, hc, hnl, hnew, h8]
    · simp [handleWebSocket, hne, hc, hnl, hnew, h8]
    · have hstate : (handleWebSocket m clientID now).state.clientsInfo =
        insertInfo m.clientsInfo clientID
          { id := clientID, name := "Client-" ++ clientID.take 8,
            status := "connected", lastSeen := now, firstSeen := now,
            lastHeartbeat := now } := by
        simp [handleWebSocket, hne, hc, hnl, hnew, h8]
      rw [hstate, insertInfo,
        if_neg (by simp [any_key_eq_false_of_lookupInfo_none hnew])]
      exact lookupInfo_append_single _ hnew

/-- Witness for C10: the short id "abc" (3 bytes) makes the handler
panic on a fresh registry, while "host-AAAA" (9 bytes) registers with
display name "Client-host-AAA". -/
theorem new_agent_id_length_precondition_witness :
    (handleWebSocket master0 "abc" 0).panicked = true ∧
    (handleWebSocket master0 "host-AAAA" 0).accepted = true :=
  ⟨((new_agent_id_length_precondition master0 "abc" 0
      (by decide) (by decide) rfl).1).mpr (by decide),
   ((new_agent_id_length_precondition master0 "host-AAAA" 0
      (by decide) (by decide) rfl).2 (by decide)).1⟩

/-- The record of agent "host-AAAA" as registered at time 0: connected,
all three timestamps 0, display name from the first 8 bytes of the id. -/
def hostARecord : ClientInfo :=
  { id := "host-AAAA", name := "Client-host-AAA", status := "connected",
    lastSeen := 0, firstSeen := 0, lastHeartbeat := 0 }

/-- The record of "host-AAAA" after the monitor demotes it at time `t`. -/
def hostADemoted (t : Nat) : ClientInfo :=
  { id := "host-AAAA", name := "Client-host-AAA", status := "disconnected",
    lastSeen := t, firstSeen := 0, lastHeartbeat := 0 }

/-- The `heartbeat_timeout` event the monitor emits when "host-AAAA" is
the last live agent to be demoted. -/
def hostATimeoutMsg : DashMsg :=
  { type := "client-disconnected", clientId := "host-AAAA",
    reason := "heartbeat_timeout", clientCount := 0 }

/-- A registry holding the single agent "host-AAAA", connected, with its
last heartbeat at time 0, observed by one dashboard connection.  (This
is the state `handleWebSocket` produces for that agent at time 0, with a
dashboard attached.) -/
def staleMaster : Master :=
  { clients := ["host-AAAA"],
    clientsInfo := [("host-AAAA", hostARecord)],
    dashboardConns := [0] }

/-- C2: on a heartbeat-monitor tick, every record that is "connected"
with `now - lastHeartbeat > 90` is set to "disconnected" with
`lastSeen = now`, its live socket (when present) is closed and removed
from the live-socket map, and a `client-disconnected` event with reason
`heartbeat_timeout` is delivered to every dashboard connection; and on
any tick whatsoever the registry is persisted iff at least one record
was demoted on that tick. -/
theorem heartbeat_timeout_demotion (m : Master) (now : Nat) (id : String)
    (info : ClientInfo)
    (hrec : lookupInfo m.clientsInfo id = some info)
    (hconn : info.status = "connected")
    (hlate : now - info.lastHeartbeat > HeartbeatTimeout) :
    lookupInfo (monitorHeartbeatsTick m now).state.clientsInfo id =
      some { info with status := "disconnected", lastSeen := now } ∧
    id ∉ (monitorHeartbeatsTick m now).state.clients ∧
    (id ∈ m.clients → id ∈ (monitorHeartbeatsTick m now).closed) ∧
    (∀ d ∈ m.dashboardConns,
      (d, { type := "client-disconnected", clientId := id,
            reason := "heartbeat_timeout",
            clientCount := (monitorHeartbeatsTick m now).state.clients.length :
              DashMsg }) ∈ (monitorHeartbeatsTick m now).deliveries) ∧
    (∀ (m2 : Master) (t : Nat),
      (monitorHeartbeatsTick m2 t).persisted = true ↔
        (monitorHeartbeatsTick m2 t).demoted ≠ []) := by
  have htc : tickCheck now info =
      ({ info with status := "disconnected", lastSeen := now }, true) := by
    rw [tickCheck, if_pos ⟨hconn, hlate⟩]
  have hdem : id ∈ (monitorHeartbeatsTick m now).demoted := by
    show id ∈ (m.clientsInfo.filter (fun p => (tickCheck now p.2).2)).map (fun p => p.1)
    exact mem_filter_map_fst (fun i => (tickCheck now i).2) hrec
      (by show (tickCheck now info).2 = true; rw [htc])
  refine ⟨?_, ?_, ?_, ?_, ?_⟩
  · show lookupInfo (m.clientsInfo.map (fun p => (p.1, (tickCheck now p.2).1))) id = _
    rw [lookupInfo_map (f := fun i => (tickCheck now i).1) m.clientsInfo id, hrec]
    simp [htc]
  · intro hmem
    have hsplit := List.mem_filter.mp hmem
    have hconF : ((m.clientsInfo.filter
        (fun p => (tickCheck now p.2).2)).map (fun p => p.1)).contains id = true :=
      List.elem_iff.mpr hdem
    rw [hconF] at hsplit
    simp at hsplit
  · intro hlive
    show id ∈ (monitorHeartbeatsTick m now).demoted.filter (fun i => m.clients.contains i)
    exact List.mem_filter.mpr ⟨hdem, List.elem_iff.mpr hlive⟩
  · intro d hd
    refine List.mem_flatMap.mpr ⟨_, List.mem_map.mpr ⟨id, hdem, rfl⟩,
      List.mem_map.mpr ⟨d, hd, rfl⟩⟩
  · intro m2 t
    show (!(monitorHeartbeatsTick m2 t).demoted.isEmpty) = true ↔ _
    cases (monitorHeartbeatsTick m2 t).demoted <;> simp

/-- Witness for C2: in `staleMaster` at tick time 120 the agent
"host-AAAA" (last heartbeat 0, so 120 seconds stale) is demoted,
removed and closed, the dashboard connection receives the
`heartbeat_timeout` event, and the tick persists. -/
theorem heartbeat_timeout_demotion_witness :
    lookupInfo (monitorHeartbeatsTick staleMaster 120).state.clientsInfo "host-AAAA" =
      some { id := "host-AAAA", name := "Client-host-AAA", status := "disconnected",
             lastSeen := 120, firstSeen := 0, lastHeartbeat := 0 } ∧
    "host-AAAA" ∉ (monitorHeartbeatsTick staleMaster 120).state.clients ∧
    ("host-AAAA" ∈ staleMaster.clients →
      "host-AAAA" ∈ (monitorHeartbeatsTick staleMaster 120).closed) ∧
    (∀ d ∈ staleMaster.dashboardConns,
      (d, { type := "client-disconnected", clientId := "host-AAAA",
            reason := "heartbeat_timeout",
            clientCount := (monitorHeartbeatsTick staleMaster 120).state.clients.length :
              DashMsg }) ∈ (monitorHeartbeatsTick staleMaster 120).deliveries) ∧
    (∀ (m2 : Master) (t : Nat),
      (monitorHeartbeatsTick m2 t).persisted = true ↔
        (monitorHeartbeatsTick m2 t).demoted ≠ []) :=
  heartbeat_timeout_demotion staleMaster 120 "host-AAAA"
    { id := "host-AAAA", name := "Client-host-AAA", status := "connected",
      lastSeen := 0, firstSeen := 0, lastHeartbeat := 0 }
    rfl rfl (by decide)

/-- Folding fresh-key insertions over an accumulator appends the mapped
bindings in order. -/
theorem foldl_insertInfo_fresh (file : List ClientInfo) :
    ∀ acc : List (String × ClientInfo),
      (∀ c ∈ file, ∀ p ∈ acc, p.1 ≠ c.id) →
      (file.map (fun c => c.id)).Nodup →
      file.foldl (fun a c => insertInfo a c.id { c with status := "disconnected" }) acc =
        acc ++ file.map (fun c => (c.id, { c with status := "disconnected" })) := by
  induction file with
  | nil =>
    intro acc _ _
    simp
  | cons c t ih =>
    intro acc hdis hnd
    rw [List.foldl_cons]
    have hany : acc.any (fun p => p.1 = c.id) = false := by
      rw [List.any_eq_false]
      intro p hp
      simpa using hdis c (List.mem_cons_self c t) p hp
    rw [show insertInfo acc c.id { c with status := "disconnected" } =
        acc ++ [(c.id, { c with status := "disconnected" })] from by
      rw [insertInfo, if_neg (by simp [hany])]]
    rw [List.map_cons, List.nodup_cons] at hnd
    have hfresh : ∀ c2 ∈ t,
        ∀ p ∈ acc ++ [(c.id, { c with status := "disconnected" })], p.1 ≠ c2.id := by
      intro c2 hc2 p hp
      rcases List.mem_append.mp hp with hpa | hpb
      · exact hdis c2 (List.mem_cons_of_mem c hc2) p hpa
      · rcases List.mem_singleton.mp hpb with rfl
        intro hEq
        refine hnd.1 ?_
        rw [show c.id = c2.id from hEq]
        exact List.mem_map_of_mem (fun x => x.id) hc2
    rw [ih (acc ++ [(c.id, ({ c with status := "disconnected" } : ClientInfo))])
      hfresh hnd.2]
    simp

/-- C5: persisting the registry and reloading the snapshot (a
coordinator restart) yields records under exactly the same agent ids,
each preserving every field but the status — in particular `firstSeen` —
with the status forced to "disconnected".  (The hypotheses are the map
invariants: record keys are unique and each record's `id` field equals
its key, both maintained by registration.) -/
theorem persist_reload_roundtrip (m : Master)
    (hnd : (m.clientsInfo.map (fun p => p.1)).Nodup)
    (hid : ∀ p ∈ m.clientsInfo, p.2.id = p.1) :
    (loadClientData (saveClientData m)).map (fun p => p.1) =
      m.clientsInfo.map (fun p => p.1) ∧
    ∀ p ∈ m.clientsInfo,
      lookupInfo (loadClientData (saveClientData m)) p.1 =
        some { p.2 with status := "disconnected" } := by
  have hids : (saveClientData m).map (fun c => c.id) = m.clientsInfo.map (fun p => p.1) := by
    rw [saveClientData, List.map_map]
    exact List.map_congr_left hid
  have hnd2 : ((saveClientData m).map (fun c => c.id)).Nodup := hids ▸ hnd
  have hload2 : loadClientData (saveClientData m) =
      (saveClientData m).map (fun c => (c.id, { c with status := "disconnected" })) := by
    rw [loadClientData,
      foldl_insertInfo_fresh (saveClientData m) [] (by intro c _ p hp; cases hp) hnd2]
    simp
  have hkeyed : loadClientData (saveClientData m) =
      m.clientsInfo.map (fun q => (q.1, { q.2 with status := "disconnected" })) := by
    rw [hload2, saveClientData, List.map_map]
    apply List.map_congr_left
    intro q hq
    simp [Function.comp, hid q hq]
  constructor
  · rw [hkeyed, List.map_map]
    simp
  · intro p hp
    rw [hkeyed,
      lookupInfo_map m.clientsInfo (fun i => { i with status := "disconnected" }) p.1,
      lookupInfo_eq_of_mem_nodup hnd hp]
    rfl

/-- Witness for C5: saving and reloading the two-agent registry keeps
both ids and both `firstSeen` stamps, with every status forced to
"disconnected". -/
theorem persist_reload_roundtrip_witness :
    (loadClientData (saveClientData twoAgentMaster)).map (fun p => p.1) =
      twoAgentMaster.clientsInfo.map (fun p => p.1) ∧
    ∀ p ∈ twoAgentMaster.clientsInfo,
      lookupInfo (loadClientData (saveClientData twoAgentMaster)) p.1 =
        some { p.2 with status := "disconnected" } :=
  persist_reload_roundtrip twoAgentMaster (by decide) (by decide)

/-- Counterexample for C8 as stated: with the monitor ticker aligned so
that ticks fall at t = 30, 60, 90 (all the tick times up to t = 95 for
that phase), the 90-second check `now - lastHeartbeat > 90` fails at
every one of them, so at t = 95 the agent whose last heartbeat was at
t = 0 is still "connected" and no `heartbeat_timeout` event has been
emitted. -/
theorem scenario_t95_not_demoted :
    lookupInfo (runTicks staleMaster [30, 60, 90]).1.clientsInfo "host-AAAA" =
      some hostARecord ∧
    (runTicks staleMaster [30, 60, 90]).2 = [] := by
  constructor
  · rfl
  · rfl

/-- C8 (corrected): an agent that stops sending heartbeats is marked
"disconnected" within monitor-interval plus timeout (30s + 90s = 120s)
of its last heartbeat — at the first tick strictly after the 90-second
deadline, whatever the ticker phase `c ∈ (0, 30]` — its socket is
removed from the live map, and exactly one `client-disconnected` event
with reason `heartbeat_timeout` is delivered to the dashboard.  (By
t = 95s this has happened only if a tick falls in (90, 95].) -/
theorem heartbeat_timeout_detection (c : Nat) (h1 : 0 < c) (h2 : c ≤ 30) :
    c + 90 ≤ MonitorInterval + HeartbeatTimeout ∧
    lookupInfo (runTicks staleMaster [c, c + 30, c + 60, c + 90]).1.clientsInfo
        "host-AAAA" = some (hostADemoted (c + 90)) ∧
    (runTicks staleMaster [c, c + 30, c + 60, c + 90]).1.clients = [] ∧
    (runTicks staleMaster [c, c + 30, c + 60, c + 90]).2 = [(0, hostATimeoutMsg)] := by
  have htcN : ∀ t : Nat, t ≤ 90 →
      tickCheck t hostARecord = (hostARecord, false) := by
    intro t ht
    rw [tickCheck, if_neg]
    rintro ⟨-, hgt⟩
    simp [HeartbeatTimeout, hostARecord] at hgt
    omega
  have e1 : ∀ t : Nat, t ≤ 90 → monitorHeartbeatsTick staleMaster t =
      { state := staleMaster, demoted := [], closed := [], deliveries := [],
        persisted := false } := by
    intro t ht
    simp [monitorHeartbeatsTick, staleMaster, htcN t ht]
  have hcond : hostARecord.status = "connected" ∧
      c + 90 - hostARecord.lastHeartbeat > HeartbeatTimeout :=
    ⟨rfl, by simp [HeartbeatTimeout, hostARecord]; omega⟩
  have htcD : tickCheck (c + 90) hostARecord = (hostADemoted (c + 90), true) := by
    rw [tickCheck, if_pos hcond]
    rfl
  have e4 : monitorHeartbeatsTick staleMaster (c + 90) =
      { state := { clients := [],
                   clientsInfo := [("host-AAAA", hostADemoted (c + 90))],
                   dashboardConns := [0] },
        demoted := ["host-AAAA"], closed := ["host-AAAA"],
        deliveries := [(0, hostATimeoutMsg)],
        persisted := true } := by
    simp [monitorHeartbeatsTick, staleMaster, htcD, broadcastToDashboard,
      hostATimeoutMsg]
  have hr : runTicks staleMaster [c, c + 30, c + 60, c + 90] =
      ({ clients := [],
         clientsInfo := [("host-AAAA", hostADemoted (c + 90))],
         dashboardConns := [0] },
       [(0, hostATimeoutMsg)]) := by
    simp [runTicks, e1 c (by omega), e1 (c + 30) (by omega), e1 (c + 60) (by omega), e4]
  refine ⟨by simp [MonitorInterval, HeartbeatTimeout]; omega, ?_, ?_, ?_⟩
  · rw [hr]
    rfl
  · rw [hr]
  · rw [hr]

/-- Witness for C8 (corrected): with ticker phase 15 the agent is
demoted at the tick at t = 105 ≤ 120, with exactly one
`heartbeat_timeout` event. -/
theorem heartbeat_timeout_detection_witness :
    15 + 90 ≤ MonitorInterval + HeartbeatTimeout ∧
    lookupInfo (runTicks staleMaster [15, 15 + 30, 15 + 60, 15 + 90]).1.clientsInfo
        "host-AAAA" = some (hostADemoted (15 + 90)) ∧
    (runTicks staleMaster [15, 15 + 30, 15 + 60, 15 + 90]).1.clients = [] ∧
    (runTicks staleMaster [15, 15 + 30, 15 + 60, 15 + 90]).2 = [(0, hostATimeoutMsg)] :=
  heartbeat_timeout_detection 15 (by decide) (by decide)
